import Mathlib

/-!
Verification of the ikago packet-relay core (internal/pcap/layer.go).

The Go source is shallowly embedded: gopacket layer structs become Lean
structures, the outbound pipeline (Pcap.handleListen) and the inbound
pipeline (Pcap.handle) become pure functions from the proxy state and a
parsed packet to the new state plus an optional emitted frame (the bytes
handed to WritePacketData).  Machine integers are Nat with explicit
mod 2^w at the points where the Go code wraps.

Parts of the repository that the pipeline calls but that are not part of
layer.go (the checksum engine, the Quintuple struct, the Device accessors)
are modelled from the specification and marked as such in their doc
comments.  Behavior of the gopacket library that the source relies on
(zero values of constructed layers, partial decoding, serialization
without fixups) is embedded directly and documented inline.
-/

/-! ## IP addresses and small byte helpers -/

/-- net.IP.To4: a 4-byte address is returned as is; a 16-byte address with
the v4-in-v6 prefix (ten zero bytes, then 0xff 0xff) is shortened to its
last four bytes; anything else yields none. -/
def ipTo4 (ip : List Nat) : Option (List Nat) :=
  if ip.length = 4 then some ip
  else if ip.length = 16 ∧ ip.take 10 = [0,0,0,0,0,0,0,0,0,0] ∧
          ip.getD 10 0 = 255 ∧ ip.getD 11 0 = 255 then
    some ((ip.drop 12).take 4)
  else none

/-- Canonical form of an IP address as used for NAT keys.  The source keys
the NAT map on net.IP.String(); on valid 4- and 16-byte addresses two
addresses render to the same string exactly when they have the same
canonical form (a v4-in-v6 address prints as its dotted quad). -/
def ipKey (ip : List Nat) : List Nat :=
  (ipTo4 ip).getD ip

/-- Big-endian 2-byte encoding of a 16-bit value (binary.BigEndian.PutUint16). -/
def byte2 (n : Nat) : List Nat := [n / 256 % 256, n % 256]

/-- Big-endian 4-byte encoding of a 32-bit value (binary.BigEndian.PutUint32). -/
def byte4 (n : Nat) : List Nat :=
  [n / 16777216 % 256, n / 65536 % 256, n / 256 % 256, n % 256]

/-- Big-endian 16-bit word read at byte offset i (0 when out of range). -/
def w16 (d : List Nat) (i : Nat) : Nat := d.getD i 0 * 256 + d.getD (i+1) 0

/-- data[a:b] on byte slices. -/
def byteSlice (d : List Nat) (a b : Nat) : List Nat := (d.drop a).take (b - a)

/-! ## Checksum engine

checksum.go is not under src/; these two functions are modelled from the
specification, section 4.B. -/

/-- One's-complement 16-bit sum of a byte string read as big-endian words;
a trailing odd byte is right-padded with zero, as the spec requires. -/
def sum16 : List Nat → Nat
  | [] => 0
  | [b] => b * 256
  | b1 :: b2 :: rest => b1 * 256 + b2 + sum16 rest

/-- End-around carry folding of a one's-complement sum into 16 bits.
Closed form of the usual fold loop: the result is congruent to n modulo
65535 and lies in [1, 65535] for positive n (0 for n = 0), exactly the
value the iterated fold (n >>> 16) + (n &&& 0xffff) converges to. -/
def onesFold (n : Nat) : Nat :=
  if n = 0 then 0 else (n - 1) % 65535 + 1

/-- Modelled from the spec: checkSum (checksum.go, not under src/) is the
IP-style checksum of a byte string: the one's-complement sum over its
16-bit words, folded and complemented. -/
def checkSum (data : List Nat) : Nat :=
  65535 - onesFold (sum16 data)

/-- The IPv4 pseudo-header for the TCP checksum: src IP, dst IP, a zero
byte, protocol 6, and the 16-bit TCP length (header plus payload). -/
def pseudoHeaderIPv4 (src dst : List Nat) (tcpLen : Nat) : List Nat :=
  src ++ dst ++ [0, 6] ++ byte2 tcpLen

/-- An IPv4 header verifies when the folded one's-complement sum over the
header bytes, checksum field included, is all-ones. -/
def ipv4HeaderChecksumOK (hdr : List Nat) : Bool :=
  onesFold (sum16 hdr) == 65535

/-- A TCP segment verifies against the IPv4 pseudo-header built from the
given addresses and its own total length when the folded sum over
pseudo-header, TCP header (checksum included) and payload is all-ones. -/
def tcpChecksumOK (src dst : List Nat) (tcpAndPayload : List Nat) : Bool :=
  onesFold (sum16 (pseudoHeaderIPv4 src dst tcpAndPayload.length ++ tcpAndPayload)) == 65535

/-! ## Layer structures (gopacket structs, Go zero values made explicit) -/

/-- layers.IPv4, restricted to the fields the source reads or writes.
contents mirrors BaseLayer.Contents: the raw bytes a layer was decoded
from; it is empty for a layer constructed by hand, which is what both
constructors below produce (gopacket only fills it during DecodeFromBytes). -/
structure IPv4Layer where
  Version : Nat
  IHL : Nat
  TOS : Nat
  Length : Nat
  Id : Nat
  Flags : Nat
  FragOffset : Nat
  TTL : Nat
  Protocol : Nat
  Checksum : Nat
  SrcIP : List Nat
  DstIP : List Nat
  contents : List Nat
deriving DecidableEq

/-- layers.TCP, restricted to the fields the source reads or writes.
netBinding models the back-reference installed by
SetNetworkLayerForChecksum. -/
structure TCPLayer where
  SrcPort : Nat
  DstPort : Nat
  Seq : Nat
  Ack : Nat
  DataOffset : Nat
  FIN : Bool
  SYN : Bool
  RST : Bool
  PSH : Bool
  ACK : Bool
  URG : Bool
  ECE : Bool
  CWR : Bool
  NS : Bool
  Window : Nat
  Checksum : Nat
  Urgent : Nat
  contents : List Nat
  netBinding : Option IPv4Layer
deriving DecidableEq

/-- layers.UDP, restricted to the fields the source reads or writes. -/
structure UDPLayer where
  SrcPort : Nat
  DstPort : Nat
  Length : Nat
  Checksum : Nat
  contents : List Nat
  netBinding : Option IPv4Layer
deriving DecidableEq

/-- A gopacket.TransportLayer argument: TCP, UDP, or some other transport
layer type (the default arm of the type switch in CreateIPv4Layer). -/
inductive TransportLayer where
  | tcp (t : TCPLayer)
  | udp (u : UDPLayer)
  | otherTrans
deriving DecidableEq

/-- The network back-reference held by a transport layer, if any. -/
def transNetBinding : TransportLayer → Option IPv4Layer
  | .tcp t => t.netBinding
  | .udp u => u.netBinding
  | .otherTrans => none

/-! ## Public layer constructors (first source file) -/

/-- CreateTCPLayer: data offset 5, PSH and ACK set, window 65535, both the
sequence and the acknowledgment number taken from the arguments, checksum
left at zero. -/
def CreateTCPLayer (srcPort dstPort seq ack : Nat) : TCPLayer :=
  { SrcPort := srcPort, DstPort := dstPort, Seq := seq, Ack := ack
    DataOffset := 5
    FIN := false, SYN := false, RST := false, PSH := true, ACK := true
    URG := false, ECE := false, CWR := false, NS := false
    Window := 65535, Checksum := 0, Urgent := 0
    contents := [], netBinding := none }

/-- CreateIPv4Layer: both addresses must be IPv4-representable (To4) and
the transport layer must be TCP or UDP; the produced header has version 4,
IHL 5, the DF flag (value 2), fragment offset 0, the given id and TTL, and
length and checksum left at zero.  The transport layer is returned with
its network back-reference bound to the produced header
(SetNetworkLayerForChecksum). -/
def CreateIPv4Layer (srcIP dstIP : List Nat) (id ttl : Nat)
    (transportLayer : TransportLayer) : Option (IPv4Layer × TransportLayer) :=
  if (ipTo4 srcIP).isNone then none
  else if (ipTo4 dstIP).isNone then none
  else
    let base : IPv4Layer :=
      { Version := 4, IHL := 5, TOS := 0, Length := 0, Id := id
        Flags := 2, FragOffset := 0, TTL := ttl, Protocol := 0
        Checksum := 0, SrcIP := srcIP, DstIP := dstIP, contents := [] }
    match transportLayer with
    | .tcp t =>
        let ip := { base with Protocol := 6 }
        some (ip, .tcp { t with netBinding := some ip })
    | .udp u =>
        let ip := { base with Protocol := 17 }
        some (ip, .udp { u with netBinding := some ip })
    | .otherTrans => none

/-- FlagIPv4Layer: sets the DF flag when df is requested, then the MF flag
when mf is requested (overwriting, so mf wins when both are requested),
clears the flags when neither is, and stores the fragment offset.
Flag values follow gopacket: MF = 1, DF = 2. -/
def FlagIPv4Layer (layer : IPv4Layer) (df mf : Bool) (offset : Nat) : IPv4Layer :=
  let l1 := if df then { layer with Flags := 2 } else layer
  let l2 := if mf then { l1 with Flags := 1 } else l1
  let l3 := if !df && !mf then { l2 with Flags := 0 } else l2
  { l3 with FragOffset := offset }

/-! ## Private pipeline constructors (second source file) -/

/-- createTCP, the private constructor used for the carrier TCP header:
data offset 5, PSH and ACK set, sequence from the argument; window,
acknowledgment number and checksum stay at their Go zero values. -/
def createTCP (srcPort dstPort seq : Nat) : TCPLayer :=
  { SrcPort := srcPort, DstPort := dstPort, Seq := seq, Ack := 0
    DataOffset := 5
    FIN := false, SYN := false, RST := false, PSH := true, ACK := true
    URG := false, ECE := false, CWR := false, NS := false
    Window := 0, Checksum := 0, Urgent := 0
    contents := [], netBinding := none }

/-- createIPv4, the private constructor for the carrier IPv4 header:
version 4, IHL 5, DF set, protocol fixed to TCP; length and checksum stay
at zero to be filled by hand. -/
def createIPv4 (srcIP dstIP : List Nat) (id ttl : Nat) : IPv4Layer :=
  { Version := 4, IHL := 5, TOS := 0, Length := 0, Id := id
    Flags := 2, FragOffset := 0, TTL := ttl, Protocol := 6
    Checksum := 0, SrcIP := srcIP, DstIP := dstIP, contents := [] }

/-- Modelled from the spec: CheckTCPIPv4Sum (checksum.go, not under src/)
computes the TCP checksum over the IPv4 pseudo-header, the TCP header with
its checksum field zeroed, and the payload, with TCP length = header
length + payload length (spec 4.B). -/
def serializeTCPHeader (l : TCPLayer) : List Nat :=
  byte2 l.SrcPort ++ byte2 l.DstPort ++ byte4 l.Seq ++ byte4 l.Ack ++
  [l.DataOffset % 16 * 16 + (if l.NS then 1 else 0),
   (if l.FIN then 1 else 0) + (if l.SYN then 2 else 0) + (if l.RST then 4 else 0) +
   (if l.PSH then 8 else 0) + (if l.ACK then 16 else 0) + (if l.URG then 32 else 0) +
   (if l.ECE then 64 else 0) + (if l.CWR then 128 else 0)] ++
  byte2 l.Window ++ byte2 l.Checksum ++ byte2 l.Urgent

/-- Modelled from the spec: the TCP-over-IPv4 checksum of a carrier TCP
layer and its payload, using the pseudo-header drawn from the given IPv4
layer (spec 4.B). -/
def CheckTCPIPv4Sum (t : TCPLayer) (data : List Nat) (ip : IPv4Layer) : Nat :=
  let src := (ipTo4 ip.SrcIP).getD ip.SrcIP
  let dst := (ipTo4 ip.DstIP).getD ip.DstIP
  let hdr := serializeTCPHeader { t with Checksum := 0 }
  checkSum (pseudoHeaderIPv4 src dst (hdr.length + data.length) ++ hdr ++ data)

/-! ## Proxy state: devices, quintuples, the Pcap struct -/

/-- The transport protocol tag of a NAT key.  Modelled from the spec:
the Quintuple struct (quintuple.go, not under src/) tags each flow with
its transport kind, with TCP, UDP, and a sentinel for every other
transport layer type (the source stores the gopacket LayerType; all the
kinds the pipeline distinguishes are these three). -/
inductive TransKind where
  | tcp
  | udp
  | other
deriving DecidableEq

/-- Modelled from the spec: the NAT key (quintuple.go, not under src/):
source IP, source port, destination IP, destination port, transport kind.
The source keys on the String() rendering of the IPs; ipKey is the
corresponding canonical form. -/
structure Quintuple where
  SrcIP : List Nat
  SrcPort : Nat
  DstIP : List Nat
  DstPort : Nat
  Protocol : TransKind
deriving DecidableEq

instance : Inhabited Quintuple := ⟨⟨[], 0, [], 0, .tcp⟩⟩

/-- A capture handle, identified by a number. -/
abbrev Handle := Nat

/-- The NAT table: insertion order list, most recent first (a Go map write
overwrites; lookup below returns the most recent insertion). -/
def natLookup (nat : List (Quintuple × Handle)) (q : Quintuple) : Option Handle :=
  (nat.find? (fun e => e.1 = q)).map (fun e => e.2)

/-- A local device as the pipeline sees it: loopback flag, MAC address,
ordered IP address list. -/
structure Device where
  isLoop : Bool
  hardwareAddr : List Nat
  ipAddrs : List (List Nat)
deriving DecidableEq

/-- Modelled from the spec: Device.IPv4 (device.go, not under src/)
returns the first IPv4-representable address, if present. -/
def devIPv4 (d : Device) : Option (List Nat) :=
  d.ipAddrs.find? (fun ip => (ipTo4 ip).isSome)

/-- Modelled from the spec: Device.IPv6 (device.go, not under src/)
returns the first non-IPv4-representable address, if present. -/
def devIPv6 (d : Device) : Option (List Nat) :=
  d.ipAddrs.find? (fun ip => (ipTo4 ip).isNone)

/-- The Pcap proxy state: configuration, carrier counters and NAT table.
seq is the 32-bit carrier sequence counter, id the 16-bit IPv4 id counter. -/
structure Pcap where
  listenPort : Nat
  upPort : Nat
  serverIP : List Nat
  serverPort : Nat
  upDev : Device
  gatewayDev : Device
  upHandle : Handle
  seq : Nat
  id : Nat
  nat : List (Quintuple × Handle)
deriving DecidableEq

/-- p.gatewayDevIP(): the first address of the gateway device.  (The Go
code indexes IPAddrs[0]; the gateway device is configured with at least
one address.) -/
def gatewayDevIP (p : Pcap) : List Nat :=
  p.gatewayDev.ipAddrs.headD []

/-! ## Link-layer serialization (gopacket SerializeTo, no fixup options) -/

/-- A constructed layers.Loopback has family 0; its serialization is four
zero bytes. -/
def loopbackHeader : List Nat := [0, 0, 0, 0]

/-- layers.Ethernet serialization: destination MAC, source MAC, ethertype;
it fails when either MAC is not 6 bytes (and no padding is added because
FixLengths is off). -/
def serializeEthernet (dstMAC srcMAC : List Nat) (etherType : Nat) : Option (List Nat) :=
  if dstMAC.length = 6 ∧ srcMAC.length = 6 then
    some (dstMAC ++ srcMAC ++ byte2 etherType)
  else none

/-- layers.IPv4 serialization without fixups: both addresses must be
IPv4-representable (AddressTo4); length and checksum fields are written
as stored.  The flags/fragment-offset word is Flags <<< 13 ||| FragOffset
on 16 bits. -/
def serializeIPv4Header (l : IPv4Layer) : Option (List Nat) :=
  match ipTo4 l.SrcIP, ipTo4 l.DstIP with
  | some s4, some d4 =>
      some ([l.Version % 16 * 16 + l.IHL % 16, l.TOS % 256] ++
            byte2 l.Length ++ byte2 l.Id ++
            byte2 ((l.Flags % 8 * 8192) ||| (l.FragOffset % 65536)) ++
            [l.TTL % 256, l.Protocol % 256] ++ byte2 l.Checksum ++ s4 ++ d4)
  | _, _ => none

/-! ## Outbound pipeline (Pcap.handleListen) -/

/-- The network layer of a captured packet, as gopacket presents it to
handleListen: IPv4 (with TTL), IPv6 (no TTL is extracted), or some other
network layer type (dropped by the type switch).  contents are the
decoded header bytes (LayerContents). -/
inductive NetInfo where
  | v4 (srcIP dstIP : List Nat) (ttl : Nat) (contents : List Nat)
  | v6 (srcIP dstIP : List Nat) (contents : List Nat)
  | otherNet (contents : List Nat)
deriving DecidableEq

/-- The transport layer of a captured packet: TCP or UDP with ports, or
another transport kind (ports stay unknown, the packet still proceeds). -/
inductive TransInfo where
  | tcpT (srcPort dstPort : Nat) (contents : List Nat)
  | udpT (srcPort dstPort : Nat) (contents : List Nat)
  | otherT (contents : List Nat)
deriving DecidableEq

/-- A captured frame as handleListen decodes it: optional network,
transport and application layers. -/
structure ListenPacket where
  network : Option NetInfo
  transport : Option TransInfo
  app : Option (List Nat)
deriving DecidableEq

def netSrcIP : NetInfo → List Nat
  | .v4 s _ _ _ => s
  | .v6 s _ _ => s
  | .otherNet _ => []

def netDstIP : NetInfo → List Nat
  | .v4 _ d _ _ => d
  | .v6 _ d _ => d
  | .otherNet _ => []

/-- TTL as handleListen extracts it: only the IPv4 arm assigns it, so it
stays at its zero value for IPv6. -/
def netTTL : NetInfo → Nat
  | .v4 _ _ ttl _ => ttl
  | .v6 _ _ _ => 0
  | .otherNet _ => 0

def netContents : NetInfo → List Nat
  | .v4 _ _ _ c => c
  | .v6 _ _ c => c
  | .otherNet c => c

/-- Ports and kind as handleListen extracts them: TCP and UDP yield their
ports, any other transport leaves the ports at zero. -/
def transPorts : TransInfo → Nat × Nat × TransKind
  | .tcpT s d _ => (s, d, .tcp)
  | .udpT s d _ => (s, d, .udp)
  | .otherT _ => (0, 0, .other)

def transContents : TransInfo → List Nat
  | .tcpT _ _ c => c
  | .udpT _ _ c => c
  | .otherT c => c

/-- The five-tuple handleListen registers for a captured packet. -/
def listenQuintuple (net : NetInfo) (trans : TransInfo) : Quintuple :=
  { SrcIP := ipKey (netSrcIP net), SrcPort := (transPorts trans).1
    DstIP := ipKey (netDstIP net), DstPort := (transPorts trans).2.1
    Protocol := (transPorts trans).2.2 }

/-- The body of handleListen once both layers are present.  Mirrors the
source order: compose the tunnel payload, create the carrier TCP and
advance seq, choose the IP family from the gateway address, build the
carrier IPv4 (advancing id) with hand-filled checksum and length, or drop
on the unimplemented IPv6 path, register the NAT entry, then serialize
raw.  Note the source computes the outer IPv4 checksum over
ipv4.LayerContents() and the length from newTransportLayer.LayerContents():
both are the empty contents of freshly constructed layers. -/
def handleListenCore (p : Pcap) (net : NetInfo) (trans : TransInfo)
    (app : Option (List Nat)) (hdl : Handle) : Pcap × Option (List Nat) :=
  let srcIP := netSrcIP net
  let dstIP := netDstIP net
  let ttl := netTTL net
  let ports := transPorts trans
  let contents : List Nat := netContents net ++ transContents trans ++ app.getD []
  let newTransportLayer := createTCP p.upPort p.serverPort p.seq
  let p1 := { p with seq := (p.seq + 1) % 4294967296 }
  let isIPv4 := (ipTo4 (gatewayDevIP p)).isSome
  match (if isIPv4 then devIPv4 p.upDev else devIPv6 p.upDev) with
  | none => (p1, none)
  | some upDevIP =>
    if isIPv4 then
      let ip0 := createIPv4 upDevIP p.serverIP p.id ((ttl + 255) % 256)
      let p2 := { p1 with id := (p.id + 1) % 65536 }
      let tcp1 := { newTransportLayer with
                    Checksum := CheckTCPIPv4Sum newTransportLayer contents ip0 }
      let ip1 := { ip0 with
                   Length := (ip0.IHL % 65536 + tcp1.contents.length % 65536 +
                              contents.length % 65536) % 65536 * 8 % 65536 }
      let ip2 := { ip1 with Checksum := checkSum ip1.contents }
      let q : Quintuple := { SrcIP := ipKey srcIP, SrcPort := ports.1
                             DstIP := ipKey dstIP, DstPort := ports.2.1
                             Protocol := ports.2.2 }
      let p3 := { p2 with nat := (q, hdl) :: p2.nat }
      let frame? :=
        (if p.upDev.isLoop then some loopbackHeader
         else serializeEthernet p.gatewayDev.hardwareAddr p.upDev.hardwareAddr 2048).bind
          (fun link => (serializeIPv4Header ip2).map
            (fun ipB => link ++ ipB ++ serializeTCPHeader tcp1 ++ contents))
      (p3, frame?)
    else (p1, none)

/-- Pcap.handleListen: the outbound pipeline entry point.  Returns the
updated proxy state and the frame written to the upstream handle, if one
was emitted.  Missing network or transport layers, and network layer
types other than IPv4 and IPv6, drop the packet. -/
def handleListen (p : Pcap) (pkt : ListenPacket) (hdl : Handle) : Pcap × Option (List Nat) :=
  match pkt.network with
  | none => (p, none)
  | some (.otherNet _) => (p, none)
  | some net =>
    match pkt.transport with
    | none => (p, none)
    | some tr => handleListenCore p net tr pkt.app hdl

/-! ## Inbound pipeline (Pcap.handle)

The carrier TCP payload is re-parsed with gopacket.NewPacket starting at
the IPv4 decoder.  gopacket adds a partially decoded layer to the packet
even when DecodeFromBytes fails (decodeIPv4 calls AddLayer and
SetNetworkLayer before checking the error), so the network layer is
always present; its fields are filled only as far as the decode got, and
the transport decoder runs only when the network decode fully succeeded. -/

/-- The transport layer of the re-parsed inner packet.  gopacket adds the
TCP or UDP layer even when it is truncated, with the ports still at their
zero values (DecodeFromBytes returns before reading them).  Protocol 6
decodes as TCP, 17 as UDP; 132 (SCTP) stands for the remaining gopacket
transport layer types, which reach the ports-unknown path; every other
protocol number produces no transport layer. -/
inductive InnerTrans where
  | tcpP (srcPort dstPort : Nat)
  | udpP (srcPort dstPort : Nat)
  | otherP
deriving DecidableEq

def decodeTransport (proto : Nat) (payload : List Nat) : Option InnerTrans :=
  match proto with
  | 6 => some (if payload.length < 20 then .tcpP 0 0
               else .tcpP (w16 payload 0) (w16 payload 2))
  | 17 => some (if payload.length < 8 then .udpP 0 0
                else .udpP (w16 payload 0) (w16 payload 2))
  | 132 => some .otherP
  | _ => none

/-- The IPv4 decode of the carrier payload, with gopacket partial-layer
semantics: fewer than 20 bytes leave every field at its zero value
(version 0, nil addresses); otherwise version, addresses and protocol are
read, and the transport decoder runs only if the header checks pass
(total length at least 20, IHL at least 5, header not longer than the
total length nor than the available bytes).  The payload handed to the
transport decoder is the data clipped to the total length, minus the
header. -/
def decodeIPv4Inner (d : List Nat) : Nat × List Nat × List Nat × Option InnerTrans :=
  if d.length < 20 then (0, [], [], none)
  else
    let version := d.getD 0 0 / 16
    let ihl := d.getD 0 0 % 16
    let totalLen := w16 d 2
    let proto := d.getD 9 0
    let src := byteSlice d 12 16
    let dst := byteSlice d 16 20
    let effData := if totalLen ≤ d.length then d.take totalLen else d
    if 20 ≤ totalLen ∧ 5 ≤ ihl ∧ ihl * 4 ≤ totalLen ∧ ihl * 4 ≤ effData.length then
      (version, src, dst, decodeTransport proto (effData.drop (ihl * 4)))
    else
      (version, src, dst, none)

/-- The IPv6 re-parse of the carrier payload (only reached from the
version-6 arm): fewer than 40 bytes leave the addresses nil (gopacket
returns before reading them, but still adds the layer); otherwise the
addresses are bytes 8..24 and 24..40. -/
def decodeIPv6Inner (d : List Nat) : List Nat × List Nat :=
  if d.length < 40 then ([], []) else (byteSlice d 8 24, byteSlice d 24 40)

/-- The outcome of the version-guessing block of Pcap.handle. -/
inductive InnerParse where
  | badVersion (v : Nat)
  | v4 (srcIP dstIP : List Nat) (transport : Option InnerTrans)
  | v6 (srcIP dstIP : List Nat) (transport : Option InnerTrans)
deriving DecidableEq

/-- The version-guessing block of Pcap.handle (lines 610 to 665): the
payload is first parsed as IPv4; the version field of that (possibly
partial) parse selects the arm.  Version 4 keeps the IPv4 addresses;
version 6 re-parses the payload as IPv6 for the addresses, but the
transport layer is still read from the first, IPv4-parsed packet, because
the source shadows encappedPacket inside the version-6 case; any other
version value is dropped. -/
def parseEncapped (d : List Nat) : InnerParse :=
  match decodeIPv4Inner d with
  | (version, src4, dst4, transport) =>
    if version = 4 then .v4 src4 dst4 transport
    else if version = 6 then
      match decodeIPv6Inner d with
      | (s6, d6) => .v6 s6 d6 transport
    else .badVersion version

def isV4Parse : InnerParse → Bool
  | .v4 _ _ _ => true
  | _ => false

def isV6Parse : InnerParse → Bool
  | .v6 _ _ _ => true
  | _ => false

/-- The reverse five-tuple Pcap.handle builds for the lookup: inner
destination IP and port as source, inner source IP and port as
destination, the inner transport kind (ports zero for other kinds). -/
def reverseTupleOf (src dst : List Nat) : InnerTrans → Quintuple
  | .tcpP s d => { SrcIP := ipKey dst, SrcPort := d, DstIP := ipKey src
                   DstPort := s, Protocol := .tcp }
  | .udpP s d => { SrcIP := ipKey dst, SrcPort := d, DstIP := ipKey src
                   DstPort := s, Protocol := .udp }
  | .otherP => { SrcIP := ipKey dst, SrcPort := 0, DstIP := ipKey src
                 DstPort := 0, Protocol := .other }

/-- The reverse five-tuple of a parsed inner packet; none when no
transport layer was decoded (the packet is dropped before the lookup in
that case). -/
def innerReverseQuintuple : InnerParse → Option Quintuple
  | .badVersion _ => none
  | .v4 src dst transport => transport.map (reverseTupleOf src dst)
  | .v6 src dst transport => transport.map (reverseTupleOf src dst)

/-- The tail of Pcap.handle once the inner parse settled on a network
family: drop when no transport layer was decoded; build the new link
layer (loopback, or Ethernet for an inner IPv4 - an inner IPv6 on a
non-loopback upstream device is dropped by the type switch, and a bad
MAC makes serialization fail); then look the reverse five-tuple up in the
NAT table, falling back to the upstream handle, and emit the link header
followed by the payload verbatim. -/
def handleInner (p : Pcap) (d : List Nat) (src dst : List Nat)
    (transport : Option InnerTrans) (innerIsV4 : Bool) :
    Pcap × Option (Handle × List Nat) :=
  match transport with
  | none => (p, none)
  | some t =>
    let link? : Option (List Nat) :=
      if p.upDev.isLoop then some loopbackHeader
      else if innerIsV4 then
        serializeEthernet p.gatewayDev.hardwareAddr p.upDev.hardwareAddr 2048
      else none
    match link? with
    | none => (p, none)
    | some link =>
      let q := reverseTupleOf src dst t
      let hdl := (natLookup p.nat q).getD p.upHandle
      (p, some (hdl, link ++ d))

/-- Pcap.handle: the inbound pipeline entry point.  Takes the carrier TCP
payload (none when the frame had no application layer, in which case the
frame is dropped and nothing changes) and returns the unchanged proxy
state together with the target handle and frame, if one is injected. -/
def handle (p : Pcap) (app : Option (List Nat)) : Pcap × Option (Handle × List Nat) :=
  match app with
  | none => (p, none)
  | some d =>
    match parseEncapped d with
    | .badVersion _ => (p, none)
    | .v4 src dst transport => handleInner p d src dst transport true
    | .v6 src dst transport => handleInner p d src dst transport false

/-! ## Concrete fixtures used by witnesses and counterexamples -/

/-- A loopback upstream device with one IPv4 address. -/
def upDevC : Device :=
  { isLoop := true, hardwareAddr := [], ipAddrs := [[192, 168, 1, 2]] }

/-- A gateway device with an IPv4 address and a MAC. -/
def gatewayC : Device :=
  { isLoop := false, hardwareAddr := [1, 2, 3, 4, 5, 6], ipAddrs := [[192, 168, 1, 1]] }

/-- A concrete proxy state with an IPv4 gateway and empty NAT table. -/
def pC : Pcap :=
  { listenPort := 888, upPort := 3000, serverIP := [5, 6, 7, 8], serverPort := 4000
    upDev := upDevC, gatewayDev := gatewayC, upHandle := 99
    seq := 0, id := 0, nat := [] }

/-- A concrete captured IPv4 TCP packet: 10.0.0.2:50000 to 8.8.8.8:443. -/
def pktC : ListenPacket :=
  { network := some (.v4 [10, 0, 0, 2] [8, 8, 8, 8] 64 [69, 0])
    transport := some (.tcpT 50000 443 [195, 80])
    app := some [1, 2, 3] }

/-! ## Helper lemmas -/

theorem ipTo4_length (ip r : List Nat) (h : ipTo4 ip = some r) : r.length = 4 := by
  unfold ipTo4 at h
  split at h
  · cases h; omega
  · split at h
    · cases h
      simp only [List.length_take, List.length_drop]
      omega
    · cases h

theorem serializeIPv4Header_length (l : IPv4Layer) (b : List Nat)
    (h : serializeIPv4Header l = some b) : b.length = 20 := by
  unfold serializeIPv4Header at h
  split at h
  case _ s4 d4 hs hd =>
    cases h
    have h1 := ipTo4_length _ _ hs
    have h2 := ipTo4_length _ _ hd
    simp [byte2, h1, h2]
  case _ => cases h

theorem drop_append_len (a b : List Nat) (n : Nat) (h : a.length = n) :
    (a ++ b).drop n = b := by
  subst h
  simp

/-! ## Claims -/

/-- C10: an inbound frame with no application-layer payload is dropped:
nothing is injected and the proxy state (NAT table, seq, id) is returned
unchanged. -/
theorem inbound_empty_payload_drops (p : Pcap) : handle p none = (p, none) := rfl

/-- C8 counterexample: with both df and mf requested, FlagIPv4Layer leaves
the DF bit clear (the mf assignment overwrites it), so the claim that DF
is set whenever df is requested fails. -/
theorem flagIPv4_both_requested_counterexample :
    (FlagIPv4Layer (createIPv4 [1, 2, 3, 4] [5, 6, 7, 8] 0 64) true true 7).Flags = 1 ∧
    (FlagIPv4Layer (createIPv4 [1, 2, 3, 4] [5, 6, 7, 8] 0 64) true true 7).Flags &&& 2 = 0 := by
  decide

/-- C8 (amended): after FlagIPv4Layer the flags never contain DF and MF
together; MF is set whenever mf is requested (mf overrides df), DF is set
when df is requested and mf is not, no flag is set when neither is
requested, and the fragment offset field holds the given offset. -/
theorem flagIPv4_spec (layer : IPv4Layer) (df mf : Bool) (offset : Nat) :
    (¬((FlagIPv4Layer layer df mf offset).Flags &&& 2 = 2 ∧
       (FlagIPv4Layer layer df mf offset).Flags &&& 1 = 1)) ∧
    (mf = true → (FlagIPv4Layer layer df mf offset).Flags = 1) ∧
    (df = true → mf = false → (FlagIPv4Layer layer df mf offset).Flags = 2) ∧
    (df = false → mf = false → (FlagIPv4Layer layer df mf offset).Flags = 0) ∧
    (FlagIPv4Layer layer df mf offset).FragOffset = offset := by
  cases df <;> cases mf <;> simp [FlagIPv4Layer]

/-- C8 witness: a concrete call with df only sets exactly the DF flag and
stores the offset. -/
theorem flagIPv4_spec_witness :
    (FlagIPv4Layer (createIPv4 [1, 2, 3, 4] [5, 6, 7, 8] 0 64) true false 7).Flags = 2 ∧
    (FlagIPv4Layer (createIPv4 [1, 2, 3, 4] [5, 6, 7, 8] 0 64) true false 7).FragOffset = 7 :=
  ⟨(flagIPv4_spec (createIPv4 [1, 2, 3, 4] [5, 6, 7, 8] 0 64) true false 7).2.2.1 rfl rfl,
   (flagIPv4_spec (createIPv4 [1, 2, 3, 4] [5, 6, 7, 8] 0 64) true false 7).2.2.2.2⟩

/-- C7: CreateIPv4Layer fails when either address is not
IPv4-representable or the transport layer is neither TCP nor UDP, and
otherwise yields a header with version 4, IHL 5, the DF flag, fragment
offset 0, the given TTL and id, protocol matching the transport kind,
length and checksum unset, and the transport layer bound to the produced
header for pseudo-header checksum computation. -/
theorem createIPv4Layer_spec (srcIP dstIP : List Nat) (id ttl : Nat) (t : TransportLayer) :
    ((ipTo4 srcIP = none ∨ ipTo4 dstIP = none) →
      CreateIPv4Layer srcIP dstIP id ttl t = none) ∧
    (t = .otherTrans → CreateIPv4Layer srcIP dstIP id ttl t = none) ∧
    (∀ ip tOut, CreateIPv4Layer srcIP dstIP id ttl t = some (ip, tOut) →
      ip.Version = 4 ∧ ip.IHL = 5 ∧ ip.Flags = 2 ∧ ip.FragOffset = 0 ∧
      ip.TTL = ttl ∧ ip.Id = id ∧ ip.SrcIP = srcIP ∧ ip.DstIP = dstIP ∧
      ip.Length = 0 ∧ ip.Checksum = 0 ∧
      (∀ tl, t = .tcp tl → ip.Protocol = 6) ∧
      (∀ ul, t = .udp ul → ip.Protocol = 17) ∧
      transNetBinding tOut = some ip) ∧
    (ipTo4 srcIP ≠ none → ipTo4 dstIP ≠ none → t ≠ .otherTrans →
      (CreateIPv4Layer srcIP dstIP id ttl t).isSome = true) := by
  cases hs : ipTo4 srcIP <;> cases hd : ipTo4 dstIP <;> cases t <;>
    simp_all [CreateIPv4Layer, transNetBinding]

/-- C7 witness: a concrete successful build has the claimed fields and
binds the transport layer to the produced header. -/
theorem createIPv4Layer_spec_witness :
    (createIPv4 [10, 0, 0, 1] [10, 0, 0, 2] 7 64).TTL = 64 ∧
    (createIPv4 [10, 0, 0, 1] [10, 0, 0, 2] 7 64).Protocol = 6 ∧
    transNetBinding
      (.tcp { createTCP 1 2 3 with netBinding := some (createIPv4 [10, 0, 0, 1] [10, 0, 0, 2] 7 64) }) =
      some (createIPv4 [10, 0, 0, 1] [10, 0, 0, 2] 7 64) := by
  obtain ⟨hV, hIHL, hFl, hFO, hTTL, hId, hS, hD, hL, hC, hTCP, hUDP, hB⟩ :=
    (createIPv4Layer_spec [10, 0, 0, 1] [10, 0, 0, 2] 7 64 (.tcp (createTCP 1 2 3))).2.2.1
      (createIPv4 [10, 0, 0, 1] [10, 0, 0, 2] 7 64)
      (.tcp { createTCP 1 2 3 with netBinding := some (createIPv4 [10, 0, 0, 1] [10, 0, 0, 2] 7 64) })
      (by decide)
  exact ⟨hTTL, hTCP _ rfl, hB⟩

/-- C1: the code contradicts the claim.  At the concrete captured packet
pktC the outbound pipeline emits a carrier frame whose TCP checksum does
verify against the IPv4 pseudo-header, but whose IPv4 header checksum
does not verify: the source computes the header checksum over
ipv4.LayerContents(), the empty contents of the freshly constructed
header, which yields the constant 0xffff regardless of the header. -/
theorem outbound_ipv4_checksum_fails_at_input :
    ((handleListen pC pktC 7).2.map (fun d => ipv4HeaderChecksumOK (byteSlice d 4 24)) =
      some false) ∧
    ((handleListen pC pktC 7).2.map
        (fun d => tcpChecksumOK [192, 168, 1, 2] [5, 6, 7, 8] (d.drop 24)) =
      some true) := by
  decide

/-- If the body of handleListen emits a frame, the resulting state has
seq advanced by one modulo 2^32 and id advanced by one modulo 2^16. -/
theorem handleListenCore_counters (p : Pcap) (net : NetInfo) (tr : TransInfo)
    (app : Option (List Nat)) (hdl : Handle)
    (h : (handleListenCore p net tr app hdl).2.isSome = true) :
    (handleListenCore p net tr app hdl).1.seq = (p.seq + 1) % 4294967296 ∧
    (handleListenCore p net tr app hdl).1.id = (p.id + 1) % 65536 := by
  simp only [handleListenCore] at h ⊢
  rcases hup : (if (ipTo4 (gatewayDevIP p)).isSome = true
                then devIPv4 p.upDev else devIPv6 p.upDev) with _ | upDevIP
  · rw [hup] at h
    simp at h
  · rw [hup] at h
    by_cases hip : (ipTo4 (gatewayDevIP p)).isSome = true
    · simp [hip]
    · simp [hip] at h

/-- C2: whenever the outbound pipeline emits a carrier frame, the seq
counter has advanced by exactly one modulo 2^32 and the id counter by
exactly one modulo 2^16 relative to their values before the packet. -/
theorem outbound_counters_advance (p : Pcap) (pkt : ListenPacket) (hdl : Handle)
    (h : (handleListen p pkt hdl).2.isSome = true) :
    (handleListen p pkt hdl).1.seq = (p.seq + 1) % 4294967296 ∧
    (handleListen p pkt hdl).1.id = (p.id + 1) % 65536 := by
  obtain ⟨net?, tr?, app⟩ := pkt
  cases net? with
  | none => simp [handleListen] at h
  | some net =>
    cases tr? with
    | none => cases net <;> simp [handleListen] at h
    | some tr =>
      cases net with
      | v4 s d ttl c => exact handleListenCore_counters p _ tr app hdl h
      | v6 s d c => exact handleListenCore_counters p _ tr app hdl h
      | otherNet c => simp [handleListen] at h

/-- C2 witness: at the concrete packet pktC a frame is emitted and both
counters have advanced by one. -/
theorem outbound_counters_advance_witness :
    (handleListen pC pktC 7).1.seq = (pC.seq + 1) % 4294967296 ∧
    (handleListen pC pktC 7).1.id = (pC.id + 1) % 65536 :=
  outbound_counters_advance pC pktC 7 rfl

/-- A proxy state whose gateway and upstream device carry only IPv6
addresses: the outbound pipeline drops every packet on the unimplemented
IPv6 carrier path, before the NAT registration. -/
def pC6 : Pcap :=
  { pC with
    upDev := { isLoop := true, hardwareAddr := []
               ipAddrs := [[254, 128, 0, 0, 0, 0, 0, 0, 0, 0, 0, 0, 0, 0, 0, 1]] }
    gatewayDev := { isLoop := false, hardwareAddr := [1, 2, 3, 4, 5, 6]
                    ipAddrs := [[32, 1, 13, 184, 0, 0, 0, 0, 0, 0, 0, 0, 0, 0, 0, 1]] } }

/-- C3 counterexample: the packet pktC observed on handle 7 has the
five-tuple below, but when the gateway is IPv6 the pipeline returns on
the unsupported-IPv6 path before the NAT insertion, so after processing
the NAT table does not map the tuple to the handle. -/
theorem outbound_nat_miss_counterexample :
    natLookup ((handleListen pC6 pktC 7).1.nat)
      (listenQuintuple (.v4 [10, 0, 0, 2] [8, 8, 8, 8] 64 [69, 0])
        (.tcpT 50000 443 [195, 80])) = none := by
  decide

/-- If the body of handleListen emits a frame, the NAT table of the
resulting state maps the packet's five-tuple to the originating handle. -/
theorem handleListenCore_nat (p : Pcap) (net : NetInfo) (tr : TransInfo)
    (app : Option (List Nat)) (hdl : Handle)
    (h : (handleListenCore p net tr app hdl).2.isSome = true) :
    natLookup (handleListenCore p net tr app hdl).1.nat (listenQuintuple net tr) = some hdl := by
  simp only [handleListenCore] at h ⊢
  rcases hup : (if (ipTo4 (gatewayDevIP p)).isSome = true
                then devIPv4 p.upDev else devIPv6 p.upDev) with _ | upDevIP
  · rw [hup] at h
    simp at h
  · rw [hup] at h
    by_cases hip : (ipTo4 (gatewayDevIP p)).isSome = true
    · simp [hip, natLookup, listenQuintuple, List.find?]
    · simp [hip] at h

/-- C3 (amended): for every packet observed on a listen handle that the
outbound pipeline emits as a carrier frame, the NAT table afterwards maps
the packet's five-tuple (ports zero and kind Other for transports beyond
TCP and UDP) to the originating handle.  Packets dropped before the
registration step (for example on the unimplemented IPv6 carrier path)
leave the table unchanged. -/
theorem outbound_nat_registered (p : Pcap) (net : NetInfo) (tr : TransInfo)
    (app : Option (List Nat)) (hdl : Handle)
    (h : (handleListen p ⟨some net, some tr, app⟩ hdl).2.isSome = true) :
    natLookup (handleListen p ⟨some net, some tr, app⟩ hdl).1.nat
      (listenQuintuple net tr) = some hdl := by
  cases net with
  | v4 s d ttl c => exact handleListenCore_nat p _ tr app hdl h
  | v6 s d c => exact handleListenCore_nat p _ tr app hdl h
  | otherNet c => simp [handleListen] at h

/-- C3 witness: after processing pktC on handle 7 the NAT table maps its
five-tuple to handle 7. -/
theorem outbound_nat_registered_witness :
    natLookup (handleListen pC ⟨some (.v4 [10, 0, 0, 2] [8, 8, 8, 8] 64 [69, 0]),
        some (.tcpT 50000 443 [195, 80]), some [1, 2, 3]⟩ 7).1.nat
      (listenQuintuple (.v4 [10, 0, 0, 2] [8, 8, 8, 8] 64 [69, 0])
        (.tcpT 50000 443 [195, 80])) = some 7 :=
  outbound_nat_registered pC (.v4 [10, 0, 0, 2] [8, 8, 8, 8] 64 [69, 0])
    (.tcpT 50000 443 [195, 80]) (some [1, 2, 3]) 7 rfl

/-- A concrete carrier payload: an IPv4 TCP packet 8.8.8.8:443 to
10.0.0.2:50000 with a 3-byte application payload. -/
def dC : List Nat :=
  [69, 0, 0, 43, 0, 0, 0, 0, 64, 6, 0, 0, 8, 8, 8, 8, 10, 0, 0, 2] ++
  [1, 187, 195, 80, 0, 0, 0, 0, 0, 0, 0, 0, 80, 24, 0, 0, 0, 0, 0, 0] ++
  [9, 9, 9]

/-- pC with a NAT entry binding the flow of pktC to handle 7. -/
def pNatC : Pcap :=
  { pC with nat := [({ SrcIP := [10, 0, 0, 2], SrcPort := 50000, DstIP := [8, 8, 8, 8]
                       DstPort := 443, Protocol := .tcp }, 7)] }

/-- If the tail of the inbound pipeline emits a frame, its bytes are
exactly the new link-layer header followed by the carrier payload
verbatim. -/
theorem handleInner_verbatim (p : Pcap) (d src dst : List Nat)
    (transport : Option InnerTrans) (innerIsV4 : Bool) (hdl : Handle) (data : List Nat)
    (h : (handleInner p d src dst transport innerIsV4).2 = some (hdl, data)) :
    data = (if p.upDev.isLoop then loopbackHeader
            else p.gatewayDev.hardwareAddr ++ p.upDev.hardwareAddr ++ byte2 2048) ++ d := by
  cases transport with
  | none => simp [handleInner] at h
  | some t =>
    simp only [handleInner] at h
    rcases hl : (if p.upDev.isLoop = true then some loopbackHeader
                 else if innerIsV4 = true then
                   serializeEthernet p.gatewayDev.hardwareAddr p.upDev.hardwareAddr 2048
                 else none) with _ | link
    · rw [hl] at h
      simp at h
    · rw [hl] at h
      simp only [Option.some.injEq, Prod.mk.injEq] at h
      by_cases hLoop : p.upDev.isLoop = true
      · rw [if_pos hLoop] at hl
        injection hl with hl2
        rw [if_pos hLoop, ← h.2, ← hl2]
      · rw [if_neg hLoop] at hl
        cases innerIsV4 with
        | false => simp at hl
        | true =>
          rw [if_pos rfl] at hl
          by_cases hmac : (p.gatewayDev.hardwareAddr.length = 6 ∧ p.upDev.hardwareAddr.length = 6)
          · rw [serializeEthernet, if_pos hmac] at hl
            injection hl with hl2
            rw [if_neg hLoop, ← h.2, ← hl2]
          · rw [serializeEthernet, if_neg hmac] at hl
            cases hl

/-- C5: every frame the inbound pipeline emits consists of the new
link-layer header (loopback, or Ethernet from the upstream MAC to the
gateway MAC with the IPv4 ethertype) followed by the carrier TCP payload
verbatim: the inner packet's header fields, checksums and payload are
not modified. -/
theorem inbound_forwards_verbatim (p : Pcap) (d : List Nat) (hdl : Handle) (data : List Nat)
    (h : (handle p (some d)).2 = some (hdl, data)) :
    data = (if p.upDev.isLoop then loopbackHeader
            else p.gatewayDev.hardwareAddr ++ p.upDev.hardwareAddr ++ byte2 2048) ++ d := by
  simp only [handle] at h
  rcases hp : parseEncapped d with v | ⟨s, d2, t⟩ | ⟨s, d2, t⟩ <;> rw [hp] at h
  · simp at h
  · exact handleInner_verbatim p d s d2 t true hdl data h
  · exact handleInner_verbatim p d s d2 t false hdl data h

/-- C5 witness: the concrete carrier payload dC is forwarded verbatim
behind the loopback header. -/
theorem inbound_forwards_verbatim_witness :
    loopbackHeader ++ dC =
      (if pNatC.upDev.isLoop then loopbackHeader
       else pNatC.gatewayDev.hardwareAddr ++ pNatC.upDev.hardwareAddr ++ byte2 2048) ++ dC :=
  inbound_forwards_verbatim pNatC dC 7 (loopbackHeader ++ dC) rfl

/-- If the tail of the inbound pipeline emits a frame, the target handle
is the NAT binding of the reverse tuple, with the upstream handle as
fallback. -/
theorem handleInner_routing (p : Pcap) (d src dst : List Nat) (t : InnerTrans)
    (innerIsV4 : Bool) (hdl : Handle) (data : List Nat)
    (h : (handleInner p d src dst (some t) innerIsV4).2 = some (hdl, data)) :
    hdl = (natLookup p.nat (reverseTupleOf src dst t)).getD p.upHandle := by
  simp only [handleInner] at h
  rcases hl : (if p.upDev.isLoop = true then some loopbackHeader
               else if innerIsV4 = true then
                 serializeEthernet p.gatewayDev.hardwareAddr p.upDev.hardwareAddr 2048
               else none) with _ | link
  · rw [hl] at h
    simp at h
  · rw [hl] at h
    simp only [Option.some.injEq, Prod.mk.injEq] at h
    exact h.1.symm

/-- C4: every frame the inbound pipeline emits is injected on the handle
the NAT table binds to the inner packet's reverse five-tuple (inner dst
IP and port as source, inner src IP and port as destination, the inner
transport kind), and on the upstream handle when that tuple is absent. -/
theorem inbound_nat_routing (p : Pcap) (d : List Nat) (hdl : Handle) (data : List Nat)
    (h : (handle p (some d)).2 = some (hdl, data)) :
    innerReverseQuintuple (parseEncapped d) ≠ none ∧
    hdl = (natLookup p.nat
            ((innerReverseQuintuple (parseEncapped d)).getD default)).getD p.upHandle := by
  simp only [handle] at h
  rcases hp : parseEncapped d with v | ⟨s, d2, t?⟩ | ⟨s, d2, t?⟩ <;> rw [hp] at h
  · simp at h
  · cases t? with
    | none => simp [handleInner] at h
    | some t =>
      refine ⟨by simp [innerReverseQuintuple], ?_⟩
      simpa [innerReverseQuintuple] using handleInner_routing p d s d2 t true hdl data h
  · cases t? with
    | none => simp [handleInner] at h
    | some t =>
      refine ⟨by simp [innerReverseQuintuple], ?_⟩
      simpa [innerReverseQuintuple] using handleInner_routing p d s d2 t false hdl data h

/-- C4 witness: the concrete carrier payload dC reverses to the tuple
bound to handle 7 in pNatC, and the emitted frame goes to handle 7. -/
theorem inbound_nat_routing_witness :
    innerReverseQuintuple (parseEncapped dC) ≠ none ∧
    (7 : Handle) = (natLookup pNatC.nat
        ((innerReverseQuintuple (parseEncapped dC)).getD default)).getD pNatC.upHandle :=
  inbound_nat_routing pNatC dC 7 (loopbackHeader ++ dC) rfl

/-- For a payload of at least 20 bytes the inner parse dispatches on the
first nibble: 4 selects the IPv4 arm, 6 the IPv6 arm, anything else is
dropped without injecting. -/
theorem parseEncapped_nibble (p : Pcap) (d : List Nat) (h20 : 20 ≤ d.length) :
    (d.getD 0 0 / 16 = 4 → isV4Parse (parseEncapped d) = true) ∧
    (d.getD 0 0 / 16 = 6 → isV6Parse (parseEncapped d) = true) ∧
    (d.getD 0 0 / 16 ≠ 4 → d.getD 0 0 / 16 ≠ 6 → (handle p (some d)).2 = none) := by
  have hv : (decodeIPv4Inner d).1 = d.getD 0 0 / 16 := by
    unfold decodeIPv4Inner
    rw [if_neg (by omega : ¬d.length < 20)]
    dsimp only
    split <;> split <;> rfl
  rcases hdec : decodeIPv4Inner d with ⟨v, s4, d4, tp⟩
  rw [hdec] at hv
  dsimp only at hv
  subst hv
  refine ⟨?_, ?_, ?_⟩
  · intro h4
    simp only [parseEncapped, hdec]
    rw [if_pos h4]
    rfl
  · intro h6
    have h4 : ¬d.getD 0 0 / 16 = 4 := by omega
    simp only [parseEncapped, hdec]
    rw [if_neg h4, if_pos h6]
    rfl
  · intro h4 h6
    have hpe : parseEncapped d = .badVersion (d.getD 0 0 / 16) := by
      simp only [parseEncapped, hdec]
      rw [if_neg h4, if_neg h6]
    simp [handle, hpe]

/-- C6 (amended): the inbound pipeline reads the inner IP version from
the version field of an initial IPv4 parse of the payload, which needs at
least 20 bytes; for such payloads the first nibble dispatches exactly as
claimed (4 to the IPv4 parse, 6 to the IPv6 parse, anything else dropped
without injecting), while a shorter non-empty payload is dropped
regardless of its first nibble because the partial parse leaves the
version field at zero. -/
theorem inbound_version_dispatch (p : Pcap) (d : List Nat) (hne : d ≠ []) :
    (20 ≤ d.length →
      (d.getD 0 0 / 16 = 4 → isV4Parse (parseEncapped d) = true) ∧
      (d.getD 0 0 / 16 = 6 → isV6Parse (parseEncapped d) = true) ∧
      (d.getD 0 0 / 16 ≠ 4 → d.getD 0 0 / 16 ≠ 6 → (handle p (some d)).2 = none)) ∧
    (d.length < 20 → (handle p (some d)).2 = none) := by
  constructor
  · intro h20
    exact parseEncapped_nibble p d h20
  · intro hlt
    have hpe : parseEncapped d = .badVersion 0 := by
      unfold parseEncapped decodeIPv4Inner
      rw [if_pos hlt]
      rfl
    simp [handle, hpe]

/-- C6 counterexample: a 10-byte payload whose first nibble is 6 is never
parsed as IPv6 (the initial IPv4 parse is truncated and leaves the
version at 0); the frame is dropped, contradicting the claim that a
nibble of 6 leads to an IPv6 parse. -/
theorem inbound_nibble6_counterexample :
    [96, 0, 0, 0, 0, 0, 0, 0, 0, 0].getD 0 0 / 16 = 6 ∧
    isV6Parse (parseEncapped [96, 0, 0, 0, 0, 0, 0, 0, 0, 0]) = false ∧
    (handle pC (some [96, 0, 0, 0, 0, 0, 0, 0, 0, 0])).2 = none := by
  decide

/-- C6 witness: the 43-byte payload dC has first nibble 4 and is parsed
as IPv4. -/
theorem inbound_version_dispatch_witness :
    isV4Parse (parseEncapped dC) = true :=
  ((inbound_version_dispatch pC dC (by decide)).1 (by decide)).1 (by decide)

theorem serializeEthernet_length (a b : List Nat) (t : Nat) (l : List Nat)
    (h : serializeEthernet a b t = some l) : l.length = 14 := by
  unfold serializeEthernet at h
  split at h
  case isTrue hc =>
    cases h
    simp [byte2, hc.1, hc.2]
  case isFalse => cases h

/-- C9: the carrier TCP header of every emitted outbound frame is the one
the private constructor createTCP builds: source port UpPort, destination
port ServerPort, the current seq, data offset 5, PSH and ACK, and, unlike
the public CreateTCPLayer (which sets window 65535 and takes an ack
argument), acknowledgment number 0 and window 0.  The first conjuncts pin
the emitted header bytes (sans the checksum field); the last two record
the two constructors' differing fields. -/
theorem outbound_carrier_tcp_header (p : Pcap) (pkt : ListenPacket) (hdl : Handle)
    (data : List Nat) (h : (handleListen p pkt hdl).2 = some data) :
    ((data.drop ((if p.upDev.isLoop then 4 else 14) + 20)).take 16 =
      byte2 p.upPort ++ byte2 p.serverPort ++ byte4 p.seq ++ byte4 0 ++ [80, 24] ++ byte2 0) ∧
    ((data.drop ((if p.upDev.isLoop then 4 else 14) + 38)).take 2 = byte2 0) ∧
    (∀ sp dp s a, (CreateTCPLayer sp dp s a).Window = 65535 ∧ (CreateTCPLayer sp dp s a).Ack = a) ∧
    (∀ sp dp s, (createTCP sp dp s).Window = 0 ∧ (createTCP sp dp s).Ack = 0 ∧
      (createTCP sp dp s).DataOffset = 5 ∧ (createTCP sp dp s).PSH = true ∧
      (createTCP sp dp s).ACK = true ∧ (createTCP sp dp s).SrcPort = sp ∧
      (createTCP sp dp s).DstPort = dp ∧ (createTCP sp dp s).Seq = s) := by
  refine ⟨?_, ?_, fun sp dp s a => by simp [CreateTCPLayer], fun sp dp s => by simp [createTCP]⟩
  all_goals
    obtain ⟨net?, tr?, app⟩ := pkt
    rcases net? with _ | net
    · simp [handleListen] at h
    rcases net with ⟨s, d, ttl, c⟩ | ⟨s, d, c⟩ | c
    rotate_right
    · simp [handleListen] at h
    all_goals
      rcases tr? with _ | tr
      · simp [handleListen] at h
      all_goals
        simp only [handleListen, handleListenCore] at h
        rcases hup : (if (ipTo4 (gatewayDevIP p)).isSome = true
                      then devIPv4 p.upDev else devIPv6 p.upDev) with _ | upDevIP <;>
          rw [hup] at h
        · simp at h
        dsimp only at h
        by_cases hip : (ipTo4 (gatewayDevIP p)).isSome = true
        case neg => rw [if_neg hip] at h; simp at h
        case pos =>
          rw [if_pos hip] at h
          simp only [Option.bind_eq_some, Option.map_eq_some'] at h
          obtain ⟨link, hlink, ipB, hipB, hdata⟩ := h
          have hlinklen : link.length = (if p.upDev.isLoop then 4 else 14) := by
            by_cases hLoop : p.upDev.isLoop = true
            · rw [if_pos hLoop] at hlink
              cases hlink
              simp [hLoop, loopbackHeader]
            · rw [if_neg hLoop] at hlink
              rw [if_neg (by simpa using hLoop)]
              exact serializeEthernet_length _ _ _ _ hlink
          have hipBlen : ipB.length = 20 := serializeIPv4Header_length _ _ hipB
          subst hdata
          simp only [List.append_assoc]
          first
          | (rw [← hlinklen, List.drop_append 20, List.drop_left' hipBlen]
             simp [serializeTCPHeader, createTCP, byte2, byte4])
          | (rw [← hlinklen, List.drop_append 38, show (38 : Nat) = 20 + 18 from rfl,
                 ← List.drop_drop, List.drop_left' hipBlen]
             simp [serializeTCPHeader, createTCP, byte2, byte4])

/-- C9 witness: the concrete frame emitted for pktC carries exactly the
createTCP header bytes. -/
theorem outbound_carrier_tcp_header_witness :
    ((((handleListen pC pktC 7).2.getD []).drop ((if pC.upDev.isLoop then 4 else 14) + 20)).take 16 =
      byte2 pC.upPort ++ byte2 pC.serverPort ++ byte4 pC.seq ++ byte4 0 ++ [80, 24] ++ byte2 0) ∧
    ((((handleListen pC pktC 7).2.getD []).drop ((if pC.upDev.isLoop then 4 else 14) + 38)).take 2 =
      byte2 0) ∧
    (∀ sp dp s a, (CreateTCPLayer sp dp s a).Window = 65535 ∧ (CreateTCPLayer sp dp s a).Ack = a) ∧
    (∀ sp dp s, (createTCP sp dp s).Window = 0 ∧ (createTCP sp dp s).Ack = 0 ∧
      (createTCP sp dp s).DataOffset = 5 ∧ (createTCP sp dp s).PSH = true ∧
      (createTCP sp dp s).ACK = true ∧ (createTCP sp dp s).SrcPort = sp ∧
      (createTCP sp dp s).DstPort = dp ∧ (createTCP sp dp s).Seq = s) :=
  outbound_carrier_tcp_header pC pktC 7 ((handleListen pC pktC 7).2.getD []) rfl
